import Mathlib

/-!
# Verification of the Travel_Agent plan pipeline (src/app.py)

Shallow embedding of the single source file `app.py`:

* `TravelInput` / `TravelPlan` — the pydantic request/response models;
* `RawTravelInput` / `validateTravelInput` — the schema validation pydantic
  performs before the handler body runs (`Field(..., gt=0)` etc.);
* `extract_content` — the response extractor, over an inductive universe of
  the Python values it can receive;
* `get_llm` — the credential / import-availability gate;
* `plan_trip` — the four-call prompt pipeline; the adapter is modelled as a
  function from the call index and the prompt text to a fallible response,
  and `plan_trip` additionally returns the list of prompts sent, in order,
  so that invocation counts and prompt contents are statable;
* `create_plan` — the `POST /api/plan` handler: validation, then the
  pipeline, with every exception converted to a 500 response carrying the
  exception message.

Python truthiness of `or` on optional strings (an empty string is falsy) is
modelled by `pyOrStr`.
-/

/-- The validated request model (`TravelInput` in app.py).
`duration_days` and `budget` are Python `int`s, hence `Int` here;
pydantic's `gt=0` is enforced by `validateTravelInput`, not by the type. -/
structure TravelInput where
  destination : String
  area : Option String
  duration_days : Int
  budget : Int
  travel_type : String
  interests : List String
deriving Repr, DecidableEq

/-- The response model (`TravelPlan` in app.py): five plain-text fields. -/
structure TravelPlan where
  travel_summary : String
  hotel_options : String
  places_to_visit : String
  cost_estimate : String
  full_plan : String
deriving Repr, DecidableEq

/-- A raw (pre-validation) JSON request body: every field may be absent. -/
structure RawTravelInput where
  destination : Option String
  area : Option String
  duration_days : Option Int
  budget : Option Int
  travel_type : Option String
  interests : Option (List String)
deriving Repr, DecidableEq

/-- Pydantic validation of `TravelInput`: `destination`, `duration_days`,
`budget`, `travel_type` are required (`Field(...)`); `duration_days` and
`budget` carry `gt=0`; `area` defaults to `None` and `interests` to `[]`.
No constraint beyond presence is placed on the strings. -/
def validateTravelInput (r : RawTravelInput) : Option TravelInput :=
  match r.destination, r.duration_days, r.budget, r.travel_type with
  | some d, some dd, some b, some tt =>
    if 0 < dd ∧ 0 < b then
      some ⟨d, r.area, dd, b, tt, r.interests.getD []⟩
    else none
  | _, _, _, _ => none

/-- A stringifiable Python value found as a value inside a response chunk
dict; `other s` stands for any further value whose `str()` is `s`. -/
inductive PyLeaf where
  | str (s : String)
  | int (n : Int)
  | other (s : String)
deriving Repr, DecidableEq

/-- Python `str()` on a `PyLeaf`. -/
def PyLeaf.toStr : PyLeaf → String
  | .str s => s
  | .int n => toString n
  | .other s => s

/-- One element of a list-shaped `content` field: a dict (looked up with
`.get ("text", "")`), or any other stringifiable value. -/
inductive Chunk where
  | str (s : String)
  | dict (entries : List (String × PyLeaf))
  | int (n : Int)
  | other (s : String)
deriving Repr, DecidableEq

/-- `str(chunk.get("text", "")) if isinstance(chunk, dict) else str(chunk)`
from app.py line 58. A Python dict has unique keys, so `List.lookup`
(first match) is its lookup. -/
def Chunk.text : Chunk → String
  | .dict es =>
    match es.lookup "text" with
    | some v => v.toStr
    | none => ""
  | .str s => s
  | .int n => toString n
  | .other s => s

/-- The `content` attribute of a response object: a list of chunks, or a
single value that gets stringified. -/
inductive Content where
  | str (s : String)
  | list (chunks : List Chunk)
  | int (n : Int)
  | other (s : String)
deriving Repr, DecidableEq

/-- The universe of adapter return values `extract_content` handles:
a plain string, an object with a `content` attribute, or any other
stringifiable value (`other s` carries its `str()`). -/
inductive LLMResponse where
  | str (s : String)
  | obj (content : Content)
  | int (n : Int)
  | other (s : String)
deriving Repr, DecidableEq

/-- `extract_content` (app.py lines 51-60): a string is returned as-is; an
object with a `content` attribute has a list content joined chunk-wise and
any other content stringified; everything else is stringified. -/
def extract_content : LLMResponse → String
  | .str s => s
  | .obj c =>
    match c with
    | .list chunks => String.join (chunks.map Chunk.text)
    | .str s => s
    | .int n => toString n
    | .other s => s
  | .int n => toString n
  | .other s => s

/-- The adapter: `invoke` receives the index of the call (0-based, the
number of prior invocations — the observable state of a recording or
per-call fake adapter) and the prompt text, and returns a raw response or
raises (modelled as `Except.error` carrying the exception message). -/
structure LLM where
  invoke : Nat → String → Except String LLMResponse

/-- `get_llm` (app.py lines 34-48): reads `GOOGLE_API_KEY` (modelled as
`apiKey`, `none` when unset); `if not api_key` is Python truthiness, so an
empty string also yields `None`. The `try: import … except ImportError`
is modelled by `importOk`; `client` is the constructed
`ChatGoogleGenerativeAI` adapter, whose behaviour is external. -/
def get_llm (apiKey : Option String) (importOk : Bool) (client : LLM) : Option LLM :=
  match apiKey with
  | none => none
  | some k => if k = "" then none else if importOk then some client else none

/-- Python `a or b` for an optional string `a`: `b` when `a` is `None` or
empty (falsy), else `a`. -/
def pyOrStr (a : Option String) (b : String) : String :=
  match a with
  | none => b
  | some s => if s = "" then b else s

/-- The interests slot shared by the summary and places prompts:
`', '.join(interests) if interests else 'General exploration'`. -/
def interestsText (t : TravelInput) : String :=
  if t.interests.isEmpty then "General exploration"
  else String.intercalate ", " t.interests

/-- Step-1 prompt (app.py lines 78-85). -/
def summaryPrompt (t : TravelInput) : String :=
  "You are a smart travel agent. Analyze the following user preferences:\n- Destination: "
    ++ t.destination ++ " (" ++ pyOrStr t.area "general area" ++ ")\n- Duration: "
    ++ toString t.duration_days ++ " days\n- Budget: ₹" ++ toString t.budget
    ++ " total\n- Travel type: " ++ t.travel_type
    ++ "\n- Interests: " ++ interestsText t
    ++ "\n\nGive a concise summary and note any constraints or considerations."

/-- The area slot of the hotel prompt (app.py line 89):
`f"{area}, {destination}" if area else destination`. -/
def areaText (t : TravelInput) : String :=
  match t.area with
  | none => t.destination
  | some a => if a = "" then t.destination else a ++ ", " ++ t.destination

/-- Step-2 prompt (app.py lines 90-97). -/
def hotelPrompt (t : TravelInput) : String :=
  "Recommend 2 " ++ t.travel_type ++ "-friendly accommodation options in or near "
    ++ areaText t ++ "\nfor " ++ toString t.duration_days
    ++ " days stay under ₹" ++ toString t.budget ++ " total.\n\nFor each option include:\n- Name\n- Approximate price per night\n- Total cost\n- Why it\x27s a good choice"

/-- Step-3 prompt (app.py lines 101-106). -/
def placesPrompt (t : TravelInput) : String :=
  "Suggest 5 must-visit places in or near " ++ t.destination
    ++ " focusing on:\n- Interests: " ++ interestsText t
    ++ "\n- Budget constraints (travel type: " ++ t.travel_type
    ++ ")\n- Located within 10-15 km of " ++ pyOrStr t.area t.destination
    ++ "\n\nInclude place name and reason to visit."

/-- Step-4 prompt (app.py lines 110-121): re-injects the hotel and places
step outputs verbatim. -/
def costPrompt (t : TravelInput) (hotels places : String) : String :=
  "Estimate the total travel cost for this " ++ toString t.duration_days
    ++ "-day trip to " ++ t.destination ++ " with the following:\n- Hotel: "
    ++ hotels ++ "\n- Sightseeing: " ++ places
    ++ "\n\nBreak down cost for:\n- Hotel stay\n- Transport/local travel\n- Food\n- Entry tickets (if any)\n- Misc\n\nGive total cost and whether it\x27s within ₹"
    ++ toString t.budget ++ "."

/-- Step-5 assembly (app.py lines 125-135): the headered concatenation of
the four step outputs. No model call. -/
def fullPlanText (summary hotels places cost : String) : String :=
  "Travel Summary:\n" ++ summary ++ "\n\nHotel Options:\n" ++ hotels
    ++ "\n\nPlaces to Visit:\n" ++ places ++ "\n\nCost Estimate:\n" ++ cost

/-- The placeholder plan returned in degraded mode (app.py lines 67-73). -/
def degradedPlan : TravelPlan :=
  { travel_summary := "Please set GOOGLE_API_KEY in .env file to use the travel planner."
    hotel_options := ""
    places_to_visit := ""
    cost_estimate := ""
    full_plan := "Please configure your API key to generate travel plans." }

/-- `plan_trip` (app.py lines 63-143). Besides the result it returns the
list of prompts passed to the adapter, in invocation order (the trace a
recording fake adapter would capture); an adapter exception aborts the
pipeline and propagates as `Except.error`. -/
def plan_trip (apiKey : Option String) (importOk : Bool) (client : LLM)
    (t : TravelInput) : List String × Except String TravelPlan :=
  match get_llm apiKey importOk client with
  | none => ([], .ok degradedPlan)
  | some llm =>
    let p1 := summaryPrompt t
    match llm.invoke 0 p1 with
    | .error e => ([p1], .error e)
    | .ok r1 =>
      let summary := extract_content r1
      let p2 := hotelPrompt t
      match llm.invoke 1 p2 with
      | .error e => ([p1, p2], .error e)
      | .ok r2 =>
        let hotels := extract_content r2
        let p3 := placesPrompt t
        match llm.invoke 2 p3 with
        | .error e => ([p1, p2, p3], .error e)
        | .ok r3 =>
          let places := extract_content r3
          let p4 := costPrompt t hotels places
          match llm.invoke 3 p4 with
          | .error e => ([p1, p2, p3, p4], .error e)
          | .ok r4 =>
            let cost := extract_content r4
            ([p1, p2, p3, p4],
             .ok { travel_summary := summary
                   hotel_options := hotels
                   places_to_visit := places
                   cost_estimate := cost
                   full_plan := fullPlanText summary hotels places cost })

/-- The `POST /api/plan` response: 200 with a plan, 422 from pydantic
validation (before the handler body runs), or 500 with the exception
message (app.py lines 151-156). -/
inductive HttpResponse where
  | ok (plan : TravelPlan)
  | validationError
  | serverError (detail : String)
deriving Repr, DecidableEq

/-- `create_plan` (app.py lines 151-156) together with the framework's
schema validation: a body failing validation never reaches the pipeline;
any exception from `plan_trip` becomes a 500 carrying `str(e)`. The second
component is the adapter-invocation trace (empty when validation fails). -/
def create_plan (apiKey : Option String) (importOk : Bool) (client : LLM)
    (raw : RawTravelInput) : HttpResponse × List String :=
  match validateTravelInput raw with
  | none => (.validationError, [])
  | some t =>
    match plan_trip apiKey importOk client t with
    | (trace, .ok p) => (.ok p, trace)
    | (trace, .error e) => (.serverError e, trace)

/-- `sub` occurs verbatim (as a contiguous substring) in `s`. -/
def containsStr (s sub : String) : Prop :=
  ∃ pre post : String, s = pre ++ sub ++ post

/-- A fake adapter that returns a fixed string for each call index,
ignoring the prompt, and never raises. -/
def fixedLLM (outs : Nat → String) : LLM :=
  ⟨fun i _ => .ok (.str (outs i))⟩

/-- The fixed per-call outputs of the end-to-end scenario's fake adapter. -/
def goaOuts : Nat → String
  | 0 => "SUMMARY-FAKE"
  | 1 => "HOTELS-FAKE"
  | 2 => "PLACES-FAKE"
  | _ => "COST-FAKE"

/-- The end-to-end scenario request from the spec. -/
def goaInput : TravelInput :=
  { destination := "Goa", area := some "Calangute", duration_days := 3,
    budget := 30000, travel_type := "budget", interests := ["beaches", "nightlife"] }

/-- The end-to-end scenario request as a raw JSON body. -/
def goaRaw : RawTravelInput :=
  { destination := some "Goa", area := some "Calangute", duration_days := some 3,
    budget := some 30000, travel_type := some "budget",
    interests := some ["beaches", "nightlife"] }

/-- A fake adapter that succeeds on the first call and raises on every
later call. -/
def failingLLM : LLM :=
  ⟨fun i _ => if i = 0 then .ok (.str "SUMM") else .error "boom"⟩

/-- A request with empty interests and no area, for the default-phrase
scenarios. -/
def noDefaultsInput : TravelInput :=
  { destination := "Goa", area := none, duration_days := 2,
    budget := 100, travel_type := "budget", interests := [] }

/-- Claim C3: the extractor satisfies the stated shape equalities, and on
every list-shaped content the result is the in-order concatenation of the
chunk texts, a dict chunk without a text key contributing the empty
string. -/
theorem extract_content_shapes :
    extract_content (.str "hello") = "hello" ∧
    extract_content (.obj (.str "x")) = "x" ∧
    extract_content (.obj (.list [.dict [("text", .str "a")], .dict [("text", .str "b")]])) = "ab" ∧
    extract_content (.obj (.list [.dict [("text", .str "a")], .str "b"])) = "ab" ∧
    extract_content (.int 42) = "42" ∧
    (∀ chunks : List Chunk,
      extract_content (.obj (.list chunks)) = String.join (chunks.map Chunk.text)) ∧
    (∀ es : List (String × PyLeaf), es.lookup "text" = none → Chunk.text (.dict es) = "") := by
  refine ⟨rfl, rfl, by decide, by decide, rfl, fun _ => rfl, fun es h => ?_⟩
  simp [Chunk.text, h]

/-- Witness for C3 at a concrete dict chunk without a text key. -/
theorem extract_content_shapes_witness :
    Chunk.text (.dict [("other", .str "z")]) = "" :=
  extract_content_shapes.2.2.2.2.2.2 [("other", PyLeaf.str "z")] (by decide)

/-- Claim C8: the extractor is total on the modelled response universe —
every input evaluates to a string (it is a structurally recursive total
function, so no exception path exists). -/
theorem extract_content_total :
    ∀ r : LLMResponse, ∃ s : String, extract_content r = s :=
  fun r => ⟨extract_content r, rfl⟩

/-- Claim C9: in degraded mode (no credential) the returned plan is a
fixed constant — no field of the request influences the output. -/
theorem degraded_plan_constant (importOk : Bool) (client : LLM)
    (t₁ t₂ : TravelInput) :
    plan_trip none importOk client t₁ = plan_trip none importOk client t₂ := rfl

/-- Claim C4: with no credential configured, the pipeline makes zero
adapter invocations and returns the guidance plan: non-empty
summary/full_plan naming the credential, all other fields empty. -/
theorem degraded_mode_plan (importOk : Bool) (client : LLM) (t : TravelInput) :
    plan_trip none importOk client t = ([], .ok degradedPlan) ∧
    degradedPlan.travel_summary ≠ "" ∧
    degradedPlan.full_plan ≠ "" ∧
    containsStr degradedPlan.travel_summary "GOOGLE_API_KEY" ∧
    containsStr degradedPlan.full_plan "API key" ∧
    degradedPlan.hotel_options = "" ∧
    degradedPlan.places_to_visit = "" ∧
    degradedPlan.cost_estimate = "" := by
  refine ⟨rfl, by decide, by decide, ⟨"Please set ", " in .env file to use the travel planner.", rfl⟩,
    ⟨"Please configure your ", " to generate travel plans.", rfl⟩, rfl, rfl, rfl⟩

/-- Claim C10: the degraded state is entered both when the credential is
unset and when the client library fails to import; in the latter case the
guidance plan is returned even though a credential is configured. -/
theorem get_llm_degraded_states (key : String) (hkey : key ≠ "")
    (importOk : Bool) (client : LLM) (t : TravelInput) :
    get_llm none importOk client = none ∧
    get_llm (some key) false client = none ∧
    plan_trip (some key) false client t = ([], .ok degradedPlan) := by
  refine ⟨rfl, ?_, ?_⟩ <;> simp [get_llm, plan_trip, hkey]

/-- Witness for C10 with a configured credential and a failing import. -/
theorem get_llm_degraded_states_witness :
    get_llm (some "k") false (fixedLLM goaOuts) = none ∧
    plan_trip (some "k") false (fixedLLM goaOuts) goaInput = ([], .ok degradedPlan) := by
  have h := get_llm_degraded_states "k" (by decide) false (fixedLLM goaOuts) goaInput
  exact ⟨h.2.1, h.2.2⟩

/-- Claim C1: with a fake adapter returning a fixed string per call, the
pipeline makes exactly 4 invocations in order [summary, hotel, places,
cost], the plan's four text fields are exactly the four extracted outputs
in order, and the cost prompt contains the hotel and places outputs
verbatim. -/
theorem plan_trip_fake_adapter (key : String) (hkey : key ≠ "")
    (outs : Nat → String) (t : TravelInput) :
    plan_trip (some key) true (fixedLLM outs) t =
      ([summaryPrompt t, hotelPrompt t, placesPrompt t,
        costPrompt t (outs 1) (outs 2)],
       .ok { travel_summary := outs 0, hotel_options := outs 1,
             places_to_visit := outs 2, cost_estimate := outs 3,
             full_plan := fullPlanText (outs 0) (outs 1) (outs 2) (outs 3) }) ∧
    containsStr (costPrompt t (outs 1) (outs 2)) (outs 1) ∧
    containsStr (costPrompt t (outs 1) (outs 2)) (outs 2) := by
  refine ⟨by simp [plan_trip, get_llm, hkey, fixedLLM, extract_content], ?_, ?_⟩
  · refine ⟨"Estimate the total travel cost for this " ++ toString t.duration_days
      ++ "-day trip to " ++ t.destination ++ " with the following:\n- Hotel: ",
      "\n- Sightseeing: " ++ outs 2
      ++ "\n\nBreak down cost for:\n- Hotel stay\n- Transport/local travel\n- Food\n- Entry tickets (if any)\n- Misc\n\nGive total cost and whether it\x27s within ₹"
      ++ toString t.budget ++ ".", ?_⟩
    simp [costPrompt, String.append_assoc]
  · refine ⟨"Estimate the total travel cost for this " ++ toString t.duration_days
      ++ "-day trip to " ++ t.destination ++ " with the following:\n- Hotel: "
      ++ outs 1 ++ "\n- Sightseeing: ",
      "\n\nBreak down cost for:\n- Hotel stay\n- Transport/local travel\n- Food\n- Entry tickets (if any)\n- Misc\n\nGive total cost and whether it\x27s within ₹"
      ++ toString t.budget ++ ".", ?_⟩
    simp [costPrompt, String.append_assoc]

/-- Witness for C1: the end-to-end Goa scenario with the fake adapter. -/
theorem plan_trip_fake_adapter_witness :
    plan_trip (some "k") true (fixedLLM goaOuts) goaInput =
      ([summaryPrompt goaInput, hotelPrompt goaInput, placesPrompt goaInput,
        costPrompt goaInput (goaOuts 1) (goaOuts 2)],
       .ok { travel_summary := goaOuts 0, hotel_options := goaOuts 1,
             places_to_visit := goaOuts 2, cost_estimate := goaOuts 3,
             full_plan := fullPlanText (goaOuts 0) (goaOuts 1) (goaOuts 2) (goaOuts 3) }) :=
  (plan_trip_fake_adapter "k" (by decide) goaOuts goaInput).1

/-- Counterexample to claim C2 as stated: with a credential configured but
the client library failing to import, plan() produces the degraded
guidance plan, whose full_plan is not the headered concatenation of its
four fields. -/
theorem full_plan_concat_cex :
    (plan_trip (some "k") false (fixedLLM goaOuts) goaInput).2 = .ok degradedPlan ∧
    degradedPlan.full_plan ≠
      fullPlanText degradedPlan.travel_summary degradedPlan.hotel_options
        degradedPlan.places_to_visit degradedPlan.cost_estimate :=
  ⟨rfl, by decide⟩

/-- Claim C2 (amended): every TravelPlan produced by plan() when the
adapter is actually available (credential configured and client library
importable) has full_plan equal to the headered concatenation of its four
text fields, in order, regardless of their content. -/
theorem full_plan_is_concat (key : String) (hkey : key ≠ "") (client : LLM)
    (t : TravelInput) (p : TravelPlan)
    (hp : (plan_trip (some key) true client t).2 = .ok p) :
    p.full_plan =
      fullPlanText p.travel_summary p.hotel_options p.places_to_visit
        p.cost_estimate := by
  unfold plan_trip at hp
  simp only [get_llm, hkey, if_neg, if_true, reduceIte] at hp
  split at hp
  · simp at hp
  · split at hp
    · simp at hp
    · split at hp
      · simp at hp
      · split at hp
        · simp at hp
        · simp only [Except.ok.injEq] at hp
          subst hp
          rfl

/-- Witness for C2 (amended) at the Goa scenario. -/
theorem full_plan_is_concat_witness :
    TravelPlan.full_plan
      { travel_summary := goaOuts 0, hotel_options := goaOuts 1,
        places_to_visit := goaOuts 2, cost_estimate := goaOuts 3,
        full_plan := fullPlanText (goaOuts 0) (goaOuts 1) (goaOuts 2) (goaOuts 3) } =
    fullPlanText (goaOuts 0) (goaOuts 1) (goaOuts 2) (goaOuts 3) :=
  full_plan_is_concat "k" (by decide) (fixedLLM goaOuts) goaInput _ rfl

/-- Claim C5: with empty interests, the summary and places prompts carry
the default phrase General exploration in the interests slot; with area
unset, the summary prompt's area slot is the phrase general area while the
hotel and places prompts fall back to the destination alone. -/
theorem default_phrase_substitution (t : TravelInput) :
    (t.interests = [] →
      interestsText t = "General exploration" ∧
      containsStr (summaryPrompt t) "General exploration" ∧
      containsStr (placesPrompt t) "General exploration") ∧
    (t.area = none →
      pyOrStr t.area "general area" = "general area" ∧
      containsStr (summaryPrompt t) "general area" ∧
      areaText t = t.destination ∧
      pyOrStr t.area t.destination = t.destination ∧
      containsStr (hotelPrompt t) t.destination ∧
      containsStr (placesPrompt t) t.destination) := by
  constructor
  · intro hi
    have hInt : interestsText t = "General exploration" := by simp [interestsText, hi]
    refine ⟨hInt, ?_, ?_⟩
    · refine ⟨"You are a smart travel agent. Analyze the following user preferences:\n- Destination: "
        ++ t.destination ++ " (" ++ pyOrStr t.area "general area" ++ ")\n- Duration: "
        ++ toString t.duration_days ++ " days\n- Budget: ₹" ++ toString t.budget
        ++ " total\n- Travel type: " ++ t.travel_type ++ "\n- Interests: ",
        "\n\nGive a concise summary and note any constraints or considerations.", ?_⟩
      simp only [summaryPrompt, hInt, String.append_assoc]
    · refine ⟨"Suggest 5 must-visit places in or near " ++ t.destination
        ++ " focusing on:\n- Interests: ",
        "\n- Budget constraints (travel type: " ++ t.travel_type
        ++ ")\n- Located within 10-15 km of " ++ pyOrStr t.area t.destination
        ++ "\n\nInclude place name and reason to visit.", ?_⟩
      simp only [placesPrompt, hInt, String.append_assoc]
  · intro ha
    have hGA : pyOrStr t.area "general area" = "general area" := by simp [pyOrStr, ha]
    have hAT : areaText t = t.destination := by simp [areaText, ha]
    have hPD : pyOrStr t.area t.destination = t.destination := by simp [pyOrStr, ha]
    refine ⟨hGA, ?_, hAT, hPD, ?_, ?_⟩
    · refine ⟨"You are a smart travel agent. Analyze the following user preferences:\n- Destination: "
        ++ t.destination ++ " (",
        ")\n- Duration: " ++ toString t.duration_days ++ " days\n- Budget: ₹"
        ++ toString t.budget ++ " total\n- Travel type: " ++ t.travel_type
        ++ "\n- Interests: " ++ interestsText t
        ++ "\n\nGive a concise summary and note any constraints or considerations.", ?_⟩
      simp only [summaryPrompt, hGA, String.append_assoc]
    · refine ⟨"Recommend 2 " ++ t.travel_type
        ++ "-friendly accommodation options in or near ",
        "\nfor " ++ toString t.duration_days ++ " days stay under ₹"
        ++ toString t.budget
        ++ " total.\n\nFor each option include:\n- Name\n- Approximate price per night\n- Total cost\n- Why it\x27s a good choice", ?_⟩
      simp only [hotelPrompt, hAT, String.append_assoc]
    · refine ⟨"Suggest 5 must-visit places in or near " ++ t.destination
        ++ " focusing on:\n- Interests: " ++ interestsText t
        ++ "\n- Budget constraints (travel type: " ++ t.travel_type
        ++ ")\n- Located within 10-15 km of ",
        "\n\nInclude place name and reason to visit.", ?_⟩
      simp only [placesPrompt, hPD, String.append_assoc]

/-- Witness for C5 at a concrete request with empty interests and no
area. -/
theorem default_phrase_substitution_witness :
    interestsText noDefaultsInput = "General exploration" ∧
    pyOrStr noDefaultsInput.area "general area" = "general area" ∧
    areaText noDefaultsInput = noDefaultsInput.destination :=
  ⟨((default_phrase_substitution noDefaultsInput).1 rfl).1,
   ((default_phrase_substitution noDefaultsInput).2 rfl).1,
   ((default_phrase_substitution noDefaultsInput).2 rfl).2.2.1⟩

/-- A raw request whose destination is the empty string but whose other
fields are valid. -/
def rawEmptyDest : RawTravelInput :=
  { destination := some "", area := none, duration_days := some 3,
    budget := some 30000, travel_type := some "budget", interests := none }

/-- A raw request with a zero duration. -/
def rawZeroDuration : RawTravelInput :=
  { destination := some "Goa", area := none, duration_days := some 0,
    budget := some 30000, travel_type := some "budget", interests := none }

/-- Counterexample to claim C6 as stated: a request with an empty-string
destination is not rejected — validation accepts it and the pipeline runs,
making 4 adapter invocations. -/
theorem empty_destination_not_rejected :
    validateTravelInput rawEmptyDest =
      some { destination := "", area := none, duration_days := 3,
             budget := 30000, travel_type := "budget", interests := [] } ∧
    (create_plan (some "k") true (fixedLLM goaOuts) rawEmptyDest).1 ≠ .validationError ∧
    (create_plan (some "k") true (fixedLLM goaOuts) rawEmptyDest).2.length = 4 := by
  refine ⟨by decide, ?_, rfl⟩
  intro h
  simp [create_plan, validateTravelInput, rawEmptyDest, plan_trip, get_llm, fixedLLM] at h

/-- Claim C6 (amended): a request missing destination, travel_type,
duration_days or budget, or with duration_days ≤ 0 or budget ≤ 0, is
rejected by schema validation before the pipeline runs, with zero adapter
invocations; destination and travel_type are only required to be present
(empty strings are accepted), while duration_days and budget must be
strictly positive integers. -/
theorem invalid_request_rejected (apiKey : Option String) (importOk : Bool)
    (client : LLM) (raw : RawTravelInput)
    (h : raw.destination = none ∨ raw.travel_type = none ∨
         raw.duration_days = none ∨ raw.budget = none ∨
         (∃ d, raw.duration_days = some d ∧ d ≤ 0) ∨
         (∃ b, raw.budget = some b ∧ b ≤ 0)) :
    create_plan apiKey importOk client raw = (.validationError, []) := by
  have hnone : validateTravelInput raw = none := by
    obtain ⟨d, a, dd, b, tt, ints⟩ := raw
    cases d <;> cases dd <;> cases b <;> cases tt <;>
      simp_all [validateTravelInput] <;> omega
  simp [create_plan, hnone]

/-- Witness for C6 (amended): a zero-duration request is rejected with an
empty invocation trace. -/
theorem invalid_request_rejected_witness :
    create_plan (some "k") true (fixedLLM goaOuts) rawZeroDuration =
      (.validationError, []) :=
  invalid_request_rejected (some "k") true (fixedLLM goaOuts) rawZeroDuration
    (Or.inr (Or.inr (Or.inr (Or.inr (Or.inl ⟨0, rfl, le_refl 0⟩)))))

/-- Claim C7: if any of the four model-invoking steps raises, the pipeline
returns no TravelPlan at all and the exception's message reaches the HTTP
surface as a 500 response. -/
theorem adapter_error_propagates (key : String) (hkey : key ≠ "")
    (client : LLM) (raw : RawTravelInput) (t : TravelInput) (e : String)
    (hv : validateTravelInput raw = some t)
    (he : (plan_trip (some key) true client t).2 = .error e) :
    (∀ p : TravelPlan, (plan_trip (some key) true client t).2 ≠ .ok p) ∧
    (create_plan (some key) true client raw).1 = .serverError e := by
  constructor
  · intro p hp
    rw [he] at hp
    cases hp
  · rcases hpt : plan_trip (some key) true client t with ⟨tr, res⟩
    rw [hpt] at he
    simp only at he
    subst he
    simp [create_plan, hv, hpt]

/-- Witness for C7: an adapter raising on the hotel step yields a 500
carrying the message. -/
theorem adapter_error_propagates_witness :
    (create_plan (some "k") true failingLLM goaRaw).1 = .serverError "boom" :=
  (adapter_error_propagates "k" (by decide) failingLLM goaRaw goaInput "boom"
    rfl rfl).2
